import Mathlib

/-!
Verification development for the Jarr desktop control panel, centred on the
shared add/search task queue of the base service tab
(src/plugins/plugin_arr_base.py, class ArrTab), the generic worker
(src/core/api_client.py, class ApiWorker), and the Lidarr payload builder
(src/plugins/plugin_lidarr.py, class LidarrTab).

The Python code is shallowly embedded: each method becomes a pure Lean
function over an explicit state record.  Network calls, the Prowlarr
aggregator, per-identifier lookups and the user's dialog interactions are
oracles passed in as function arguments or event parameters (each models the
outcome that the corresponding call or interaction produced).  Ghost fields
record observations (how many times a dialog was shown, how many worker
threads are live, which items were queued) without influencing control flow.
-/

namespace Jarr

/-- A catalog record returned by a lookup endpoint.  JSON dictionaries are
dynamic in Python; this record carries the fields the embedded code reads
(absent keys are `none`). -/
structure Candidate where
  title : Option String := none
  year : Option Nat := none
  artistName : Option String := none
  foreignArtistId : Option String := none
  images : Option (List String) := none
deriving DecidableEq, Repr

/-- One result row of a Prowlarr search, restricted to the keys
`_task_prowlarr_to_arr_lookup` reads. -/
structure ProwlarrItem where
  tvdbId : Option Nat := none
  tmdbId : Option Nat := none
  imdbId : Option String := none
deriving DecidableEq, Repr

/-- Data attached to a root-folder combo entry:
`{"id": folder.get("id"), "path": folder.get("path")}`. -/
structure RootFolder where
  id : Nat
  path : String
deriving DecidableEq, Repr

/-- Data attached to a quality-profile combo entry: `{"id": profile.get("id")}`. -/
structure Profile where
  id : Nat
deriving DecidableEq, Repr

/-- The dictionary built by `ArrTab.on_item_selected` and consumed by
`_task_add_item` (the PendingAddItem of the spec). -/
structure AddItem where
  item_json : Candidate
  root_folder_id : Nat
  root_folder_path : String
  quality_profile_id : Nat
  search_type : String
deriving DecidableEq, Repr

/-- Whether the list of characters starts with the second list
(character-wise comparison). -/
def charsStartWith : List Char → List Char → Bool
  | _, [] => true
  | [], _ :: _ => false
  | a :: as, b :: bs => a == b && charsStartWith as bs

/-- Whether the second list occurs as a contiguous run of the first. -/
def charsHasSub : List Char → List Char → Bool
  | [], needle => needle.isEmpty
  | a :: t, needle => charsStartWith (a :: t) needle || charsHasSub t needle

/-- ASCII whitespace, for the character-level strip below. -/
def isSpaceChar (c : Char) : Bool :=
  c == ' ' || c == '\t' || c == '\n' || c == '\r'

/-- Python's str.strip() (whitespace from both ends), character-level. -/
def pyStrip (s : String) : String :=
  ⟨((s.toList.dropWhile isSpaceChar).reverse.dropWhile isSpaceChar).reverse⟩

/-- Python's substring test `sub in s`. -/
def strContains (s sub : String) : Bool :=
  charsHasSub s.toList sub.toList

/-!  ## ApiWorker (src/core/api_client.py, lines 125-170)

`ApiWorker.run` executes `self.task_callable(*args, **kwargs)` under
`try/except Exception`, so no exception of the task escapes `run`; the model
is therefore a total function.  The task's outcome is the oracle
`task : Except String (Option α)`: `.ok v` models a normal return (`v = none`
is Python `None`), `.error e` models a raised exception whose `str` is `e`.
`running` is the value of `self.is_running` when the task completes (set to
`false` by `stop()`).  The function returns the emissions of the `progress`
signal and of the `finished` signal, in order. -/
def apiWorkerRun {α : Type} (taskName : String) (task : Except String (Option α))
    (running : Bool) : List String × List (Option α × String) :=
  let finished : List (Option α × String) :=
    match task with
    | .ok v => if running then [(v, "")] else []
    | .error e => if running then [(none, e)] else []
  (["Starting task: " ++ taskName ++ "...", "Task finished: " ++ taskName], finished)

/-!  ## ArrTab state (src/plugins/plugin_arr_base.py)

One record holds the mutable attributes of an `ArrTab` instance that the
queue logic reads or writes.  A thread attribute (`status_thread`, ...) is
modelled by whether it is non-None; `search_thread` additionally records
which operation the worker it points to is performing, since
`_run_search_worker` and `_run_add_worker` share that attribute.  The two
combo boxes are modelled by their item-data lists; `currentData` of a
non-empty combo is its first entry (current index 0 after repopulation).

Ghost fields (marked below) are observations: counters of live worker
threads per slot (incremented when `thread.start()` runs, decremented when
the thread finishes), of `process_next_item_in_queue` invocations, of
`SelectionDialog` presentations, of `QMessageBox.critical` error dialogs, of
duplicate-item warnings, of validation warnings, and the log of every
PendingAddItem ever queued by `on_item_selected`. -/

/-- The operation the worker registered in `search_thread` is performing. -/
inductive PendingOp
  | search (term : String)
  | add (item : AddItem)
deriving DecidableEq, Repr

/-- Result of `_task_get_status` as read by `on_status_finished`
(`result.get("status") == "down"`). -/
inductive UpDown
  | up
  | down
deriving DecidableEq, Repr

structure TabState where
  statusThread : Bool
  foldersThread : Bool
  profilesThread : Bool
  searchThread : Option PendingOp
  termsToAddQueue : List String
  itemsToAddQueue : List AddItem
  termsToAddTotalCount : Nat
  currentSearchTerm : Option String
  currentSearchType : String
  comboRootFolder : List RootFolder
  comboQualityProfile : List Profile
  -- ghost instrumentation
  statusLive : Nat
  foldersLive : Nat
  profilesLive : Nat
  searchLive : Nat
  advanceCalls : Nat
  chooserCount : Nat
  errorDialogs : Nat
  dupWarnings : Nat
  validationWarnings : Nat
  queuedLog : List AddItem
deriving DecidableEq, Repr

/-- State after `ArrTab.__init__` (before the delayed initial
`check_status` fires). -/
def initState : TabState where
  statusThread := false
  foldersThread := false
  profilesThread := false
  searchThread := none
  termsToAddQueue := []
  itemsToAddQueue := []
  termsToAddTotalCount := 0
  currentSearchTerm := none
  currentSearchType := "item"
  comboRootFolder := []
  comboQualityProfile := []
  statusLive := 0
  foldersLive := 0
  profilesLive := 0
  searchLive := 0
  advanceCalls := 0
  chooserCount := 0
  errorDialogs := 0
  dupWarnings := 0
  validationWarnings := 0
  queuedLog := []

/-- Model of `_start_worker` for the `status_thread` slot (`check_status`): if the
attribute is already set, log a warning and start nothing; otherwise create
the thread and start it. -/
def check_status (st : TabState) : TabState :=
  if st.statusThread then st
  else { st with statusThread := true, statusLive := st.statusLive + 1 }

/-- Model of `refresh_root_folders`: `_start_worker` on the `folders_thread` slot. -/
def refresh_root_folders (st : TabState) : TabState :=
  if st.foldersThread then st
  else { st with foldersThread := true, foldersLive := st.foldersLive + 1 }

/-- Model of `refresh_quality_profiles`: `_start_worker` on the `profiles_thread` slot. -/
def refresh_quality_profiles (st : TabState) : TabState :=
  if st.profilesThread then st
  else { st with profilesThread := true, profilesLive := st.profilesLive + 1 }

/-- Model of `_run_search_worker`: `_start_worker` on the shared `search_thread` slot
with task `_task_search_item`. -/
def run_search_worker (st : TabState) (term : String) : TabState :=
  if st.searchThread.isSome then st
  else { st with searchThread := some (.search term), searchLive := st.searchLive + 1 }

/-- Model of `_run_add_worker`: `_start_worker` on the shared `search_thread` slot
with task `_task_add_item`. -/
def run_add_worker (st : TabState) (item : AddItem) : TabState :=
  if st.searchThread.isSome then st
  else { st with searchThread := some (.add item), searchLive := st.searchLive + 1 }

/-- Model of `process_next_item_in_queue` (the engine's advance()): no-op if the
shared slot is busy; otherwise pop and submit the head add item, else pop
and resolve the head search term, else report batch completion. -/
def process_next_item_in_queue (st0 : TabState) : TabState :=
  let st := { st0 with advanceCalls := st0.advanceCalls + 1 }
  if st.searchThread.isSome then st
  else
    match st.itemsToAddQueue with
    | item :: rest =>
        run_add_worker { st with itemsToAddQueue := rest } item
    | [] =>
        match st.termsToAddQueue with
        | t :: rest =>
            run_search_worker
              { st with termsToAddQueue := rest, currentSearchTerm := some t } t
        | [] =>
            if st.termsToAddTotalCount > 0 then { st with termsToAddTotalCount := 0 }
            else st

/-- The PendingAddItem dictionary `on_item_selected` builds from the selected
candidate and the combo boxes' current data. -/
def mkAddItem (root : RootFolder) (profile : Profile) (ty : String)
    (item_json : Candidate) : AddItem where
  item_json := item_json
  root_folder_id := root.id
  root_folder_path := root.path
  quality_profile_id := profile.id
  search_type := ty

/-- Model of `on_item_selected`: reads the combos' current data; if either is missing
it only logs an error, otherwise it appends the PendingAddItem to
`items_to_add_queue` (and to the ghost log). -/
def on_item_selected (st : TabState) (item_json : Candidate) : TabState :=
  match st.comboRootFolder.head?, st.comboQualityProfile.head? with
  | some root, some profile =>
      let item := mkAddItem root profile st.currentSearchType item_json
      { st with
        itemsToAddQueue := st.itemsToAddQueue ++ [item]
        queuedLog := st.queuedLog ++ [item] }
  | _, _ => st

/-- Model of the `on_search_finished` completion callback.  `result`/`error` are the
worker's emission; `choice` is the oracle for the SelectionDialog
interaction in the many-results branch: `none` models exec() returning
rejected (cancel/Skip), `some rows` models an accepted dialog whose selected
row indices are `rows` (out-of-range indices select nothing). -/
def on_search_finished (st : TabState) (result : Option (List Candidate))
    (error : String) (choice : Option (List Nat)) : TabState :=
  let st1 :=
    if error ≠ "" ∨ result = none then
      { st with errorDialogs := st.errorDialogs + 1 }
    else
      match result with
      | none => st
      | some [] => st
      | some [c] => on_item_selected st c
      | some cs =>
          let std := { st with chooserCount := st.chooserCount + 1 }
          match choice with
          | some rows =>
              let sel := rows.filterMap fun i => cs[i]?
              if sel ≠ [] then sel.foldl on_item_selected std else std
          | none => std
  process_next_item_in_queue st1

/-- Python's str.lower(), character-wise (the embedded code only compares
against ASCII needles). -/
def strLower (s : String) : List Char :=
  s.toList.map Char.toLower

/-- The duplicate-add test of `on_add_finished`:
`"400" in error and ("already" in error.lower() or "exist" in error.lower())`. -/
def isDuplicateError (error : String) : Bool :=
  strContains error "400" &&
    (charsHasSub (strLower error) "already".toList ||
     charsHasSub (strLower error) "exist".toList)

/-- Model of the `on_add_finished` completion callback: duplicate failures log a warning,
other failures show an error dialog, successes publish item_added; then the
engine advances. -/
def on_add_finished (st : TabState) (result : Option Candidate)
    (error : String) : TabState :=
  let st1 :=
    if error ≠ "" ∨ result = none then
      if isDuplicateError error then { st with dupWarnings := st.dupWarnings + 1 }
      else { st with errorDialogs := st.errorDialogs + 1 }
    else st
  process_next_item_in_queue st1

/-- Model of `on_status_finished`: on failure or "down" only the label and a bus
event change; on "up" it triggers both refreshes, in source order. -/
def on_status_finished (st : TabState) (result : Option UpDown)
    (error : String) : TabState :=
  if error ≠ "" ∨ result = none ∨ result = some .down then st
  else refresh_quality_profiles (refresh_root_folders st)

/-- Model of `on_root_folders_finished`: on success the combo is cleared and
repopulated with one entry per returned folder. -/
def on_root_folders_finished (st : TabState) (result : Option (List RootFolder))
    (error : String) : TabState :=
  if error ≠ "" ∨ result = none then st
  else { st with comboRootFolder := result.getD [] }

/-- Model of `on_quality_profiles_finished`: same shape for the profiles combo. -/
def on_quality_profiles_finished (st : TabState) (result : Option (List Profile))
    (error : String) : TabState :=
  if error ≠ "" ∨ result = none then st
  else { st with comboQualityProfile := result.getD [] }

/-- Model of `_validate_inputs`: rejects an empty term (unless the CSV sentinel
"N/A"), then rejects when either combo is empty; on success it clears both
pending queues.  Returns the (possibly mutated) state and the verdict. -/
def validate_inputs (st : TabState) (search_term : String) : TabState × Bool :=
  if search_term ≠ "N/A" ∧ search_term = "" then
    ({ st with validationWarnings := st.validationWarnings + 1 }, false)
  else if st.comboRootFolder.length = 0 then
    ({ st with validationWarnings := st.validationWarnings + 1 }, false)
  else if st.comboQualityProfile.length = 0 then
    ({ st with validationWarnings := st.validationWarnings + 1 }, false)
  else
    ({ st with termsToAddQueue := [], itemsToAddQueue := [] }, true)

/-- Model of `add_from_text`: validate the stripped input; on success the pending
terms become exactly this one term and the engine advances. -/
def add_from_text (st : TabState) (raw : String) : TabState :=
  let search_term := pyStrip raw
  match validate_inputs st search_term with
  | (st1, false) => st1
  | (st1, true) =>
      process_next_item_in_queue
        { st1 with termsToAddQueue := [search_term], termsToAddTotalCount := 1 }

/-- The terms `import_from_csv` reads from the parsed CSV rows (after the
skipped header): each row's stripped first cell, when non-empty. -/
def csvTerms (rows : List (List String)) : List String :=
  rows.filterMap fun r =>
    r.head?.bind fun c => let t := pyStrip c; if t = "" then none else some t

/-- Model of `import_from_csv`, given the parsed CSV rows after the skipped header
(the file-dialog and file reading are outside the model): validate first,
then keep each row's stripped first cell when non-empty; an empty term list
only warns, otherwise the terms become the pending queue and the engine
advances. -/
def import_from_csv (st : TabState) (rows : List (List String)) : TabState :=
  match validate_inputs st "N/A" with
  | (st1, false) => st1
  | (st1, true) =>
      let terms := csvTerms rows
      if terms = [] then st1
      else
        process_next_item_in_queue
          { st1 with termsToAddQueue := terms, termsToAddTotalCount := terms.length }

/-- Model of `start_search_and_add` (event-bus entry point): rejects an empty term,
validates, optionally overrides the search type (a truthy one), then queues
the single term and advances. -/
def start_search_and_add (st : TabState) (search_term : String)
    (search_type : Option String) : TabState :=
  if search_term = "" then st
  else
    match validate_inputs st search_term with
    | (st1, false) => st1
    | (st1, true) =>
        let st2 :=
          match search_type with
          | some ty => if ty ≠ "" then { st1 with currentSearchType := ty } else st1
          | none => st1
        process_next_item_in_queue
          { st2 with termsToAddQueue := [search_term], termsToAddTotalCount := 1 }

/-!  ## Events and reachability

An event is either a user/bus action or the completion of an outstanding
worker.  A completion event models the whole completion sequence driven by
the worker's `finished` signal: the thread attribute set by `_start_worker`
is cleared (the `thread.finished` lambdas) and the connected `on_*_finished`
slot runs with the emitted `(result, error)` pair.  A completion event whose
slot holds no matching worker changes nothing. -/

inductive Event
  | checkStatus
  | refreshFolders
  | refreshProfiles
  | addFromText (raw : String)
  | importCsv (rows : List (List String))
  | startSearchAndAdd (term : String) (ty : Option String)
  | statusDone (result : Option UpDown) (error : String)
  | foldersDone (result : Option (List RootFolder)) (error : String)
  | profilesDone (result : Option (List Profile)) (error : String)
  | searchDone (result : Option (List Candidate)) (error : String)
      (choice : Option (List Nat))
  | addDone (result : Option Candidate) (error : String)
deriving DecidableEq, Repr

/-- Whether the event is the completion of a queue-driven operation (the
shared `search_thread` slot). -/
def Event.isQueueDone : Event → Bool
  | .searchDone _ _ _ => true
  | .addDone _ _ => true
  | _ => false

def step (st : TabState) (e : Event) : TabState :=
  match e with
  | .checkStatus => check_status st
  | .refreshFolders => refresh_root_folders st
  | .refreshProfiles => refresh_quality_profiles st
  | .addFromText raw => add_from_text st raw
  | .importCsv rows => import_from_csv st rows
  | .startSearchAndAdd t ty => start_search_and_add st t ty
  | .statusDone r err =>
      if st.statusThread then
        on_status_finished
          { st with statusThread := false, statusLive := st.statusLive - 1 } r err
      else st
  | .foldersDone r err =>
      if st.foldersThread then
        on_root_folders_finished
          { st with foldersThread := false, foldersLive := st.foldersLive - 1 } r err
      else st
  | .profilesDone r err =>
      if st.profilesThread then
        on_quality_profiles_finished
          { st with profilesThread := false, profilesLive := st.profilesLive - 1 } r err
      else st
  | .searchDone r err ch =>
      match st.searchThread with
      | some (.search _) =>
          on_search_finished
            { st with searchThread := none, searchLive := st.searchLive - 1 } r err ch
      | _ => st
  | .addDone r err =>
      match st.searchThread with
      | some (.add _) =>
          on_add_finished
            { st with searchThread := none, searchLive := st.searchLive - 1 } r err
      | _ => st

/-- Run a sequence of events from a state. -/
def run (st : TabState) (es : List Event) : TabState :=
  es.foldl step st

/-!  ## Catalog resolver (src/plugins/plugin_arr_base.py, lines 188-248)

`_get_arr_base_url` either returns (base_url, api_key) or raises a
configuration ValueError; it is the oracle `cfg : Except String ArrCfg`.
One per-identifier *Arr lookup is the oracle
`lookup : String → Except String (List Candidate)` (`.error` models a raised
request exception); the Prowlarr search is the oracle
`prowlarr : Except String (List ProwlarrItem)`; the direct term search body
is the oracle `direct : Except String (List Candidate)`. -/

/-- base URL and API key, as returned by `_get_arr_base_url`. -/
structure ArrCfg where
  base_url : String
  api_key : String
deriving DecidableEq, Repr

/-- The per-result identifier extraction of `_task_prowlarr_to_arr_lookup`:
Sonarr takes a truthy `tvdbId`; Radarr takes a truthy `tmdbId`, else a
truthy `imdbId`; anything else yields no identifier (Python truthiness: the
number 0 and the empty string are falsy). -/
def extractLookupId (svc : String) (item : ProwlarrItem) : Option String :=
  if svc = "sonarr" then
    match item.tvdbId with
    | some n => if n ≠ 0 then some ("tvdb:" ++ toString n) else none
    | none => none
  else if svc = "radarr" then
    match item.tmdbId with
    | some n =>
        if n ≠ 0 then some ("tmdb:" ++ toString n)
        else
          match item.imdbId with
          | some s => if s ≠ "" then some ("imdb:" ++ s) else none
          | none => none
    | none =>
        match item.imdbId with
        | some s => if s ≠ "" then some ("imdb:" ++ s) else none
        | none => none
  else none

/-- The loop of `_task_prowlarr_to_arr_lookup` over the (already truncated)
result list, carrying `seen_ids`, `arr_results` and, as a ghost, the list of
identifiers actually sent to the *Arr lookup endpoint.  A raised
per-identifier lookup is swallowed (`except Exception: continue`); a
non-empty response contributes its first element. -/
def crossRefGo (svc : String) (lookup : String → Except String (List Candidate)) :
    List ProwlarrItem → List String → List Candidate → List String →
    List Candidate × List String
  | [], _seen, acc, calls => (acc, calls)
  | item :: rest, seen, acc, calls =>
    match extractLookupId svc item with
    | none => crossRefGo svc lookup rest seen acc calls
    | some lid =>
      if lid == "" || seen.contains lid then crossRefGo svc lookup rest seen acc calls
      else
        match lookup lid with
        | .ok (h :: _) =>
            crossRefGo svc lookup rest (lid :: seen) (acc ++ [h]) (calls ++ [lid])
        | .ok [] => crossRefGo svc lookup rest (lid :: seen) acc (calls ++ [lid])
        | .error _ => crossRefGo svc lookup rest (lid :: seen) acc (calls ++ [lid])

/-- Model of `_task_prowlarr_to_arr_lookup`: fetch the configuration (its ValueError
propagates), then run the cross-reference loop over the first 10 Prowlarr
results.  Returns the collected candidates and the ghost list of performed
lookups. -/
def prowlarrToArrLookup (svc : String) (cfg : Except String ArrCfg)
    (lookup : String → Except String (List Candidate))
    (prowlarrResults : List ProwlarrItem) :
    Except String (List Candidate × List String) :=
  match cfg with
  | .error e => .error e
  | .ok _ => .ok (crossRefGo svc lookup (prowlarrResults.take 10) [] [] [])

/-- The secondary-indexer phase of `_task_search_item`, i.e. the body of its
`try` block together with the falsiness checks: a raised Prowlarr search or
cross-reference propagates as `.error`, no Prowlarr results or no usable
cross-referenced candidates yield `.ok []`. -/
def secondaryResult (svc : String) (cfg : Except String ArrCfg)
    (prowlarr : Except String (List ProwlarrItem))
    (lookup : String → Except String (List Candidate)) :
    Except String (List Candidate) :=
  match prowlarr with
  | .error e => .error e
  | .ok [] => .ok []
  | .ok pr =>
      match prowlarrToArrLookup svc cfg lookup pr with
      | .error e => .error e
      | .ok (cands, _) => .ok cands

/-- The primary path of `_task_search_item`: `_get_arr_base_url` (its
ValueError propagates) followed by the direct term lookup. -/
def primaryLookup (cfg : Except String ArrCfg)
    (direct : Except String (List Candidate)) : Except String (List Candidate) :=
  match cfg with
  | .error e => .error e
  | .ok _ => direct

/-- Model of `_task_search_item` (base class): for Sonarr/Radarr the secondary phase
runs inside `try/except`; only a non-empty secondary candidate list is
returned directly, every other outcome (raise, no results, no usable
candidates) logs a warning and falls back to the primary path.  The Bool
records whether the primary direct lookup was attempted. -/
def taskSearchItem (svc : String) (cfg : Except String ArrCfg)
    (prowlarr : Except String (List ProwlarrItem))
    (lookup : String → Except String (List Candidate))
    (direct : Except String (List Candidate)) :
    Except String (List Candidate) × Bool :=
  if svc = "sonarr" ∨ svc = "radarr" then
    match secondaryResult svc cfg prowlarr lookup with
    | .ok (h :: t) => (.ok (h :: t), false)
    | .ok [] => (primaryLookup cfg direct, true)
    | .error _ => (primaryLookup cfg direct, true)
  else (primaryLookup cfg direct, true)

/-!  ## Claim-side description of the cross-reference algorithm (C8)

Written from the claim's words, to be compared with the loop translated
from the source: consider at most the first 10 results, extract one
identifier per result, skip results with no identifier (Python falsiness
makes an empty identifier "no identifier"), deduplicate keeping first
occurrences, perform one lookup per unique identifier, collect the first
hit of each non-empty response in source order, silently skip raising
lookups. -/

/-- Deduplication keeping the first occurrence of each element. -/
def dedupFirst : List String → List String
  | [] => []
  | a :: l => a :: dedupFirst (l.filter fun b => !(b == a))
termination_by l => l.length
decreasing_by
  simp only [List.length_cons]
  exact Nat.lt_succ_of_le (List.length_filter_le _ _)

/-- The first hit of one identifier's lookup: nothing on a raise or an empty
response, the head of a non-empty response. -/
def firstHit (lookup : String → Except String (List Candidate)) (lid : String) :
    List Candidate :=
  match lookup lid with
  | .ok (h :: _) => [h]
  | .ok [] => []
  | .error _ => []

/-- The claim's cross-reference description: unique usable identifiers of
the first 10 results, and their first hits in order. -/
def crossRefSpec (svc : String) (lookup : String → Except String (List Candidate))
    (results : List ProwlarrItem) : List Candidate × List String :=
  let ids := dedupFirst
    (((results.take 10).filterMap (extractLookupId svc)).filter fun i => !(i == ""))
  (ids.flatMap (firstHit lookup), ids)

/-!  ## Add-item task and the Lidarr payload builder
(src/plugins/plugin_arr_base.py lines 263-275, src/plugins/plugin_lidarr.py
lines 80-99) -/

/-- The JSON payload `LidarrTab._build_add_payload` builds (the final
keyword-merge re-adds `artistName`/`foreignArtistId` with identical values
and `images` when present). -/
structure LidarrAddPayload where
  foreignArtistId : Option String
  artistName : Option String
  qualityProfileId : Nat
  metadataProfileId : Nat
  rootFolderPath : String
  monitored : Bool
  searchForMissingAlbums : Bool
  monitorAll : String
  images : Option (List String)
deriving DecidableEq, Repr

/-- The message of the ValueError raised for a direct album add. -/
def albumAddError : String :=
  "Adding albums directly is not supported by this tool. Please search for and add the artist."

/-- Model of `LidarrTab._build_add_payload`: raises for search type "album", builds
the artist payload otherwise. -/
def lidarrBuildAddPayload (item_json : Candidate) (item_data : AddItem) :
    Except String LidarrAddPayload :=
  if item_data.search_type = "album" then .error albumAddError
  else
    .ok
      { foreignArtistId := item_json.foreignArtistId
        artistName := item_json.artistName
        qualityProfileId := item_data.quality_profile_id
        metadataProfileId := 1
        rootFolderPath := item_data.root_folder_path
        monitored := true
        searchForMissingAlbums := true
        monitorAll := "all"
        images := item_json.images }

/-- Model of `ArrTab._task_add_item` with the payload builder supplied by the
subclass: configuration first, then the payload (whose ValueError
propagates), then exactly one POST, whose outcome is the oracle `net`.  The
Nat counts HTTP creation calls issued. -/
def taskAddItem {β : Type} (buildPayload : Candidate → AddItem → Except String β)
    (cfg : Except String ArrCfg) (item_data : AddItem)
    (net : β → Except String Candidate) : Except String Candidate × Nat :=
  match cfg with
  | .error e => (.error e, 0)
  | .ok _ =>
      match buildPayload item_data.item_json item_data with
      | .error e => (.error e, 0)
      | .ok payload => (net payload, 1)

/-!  ## Frame lemmas -/

/-- Fields `process_next_item_in_queue` never changes, and its ghost
advance counter. -/
theorem pn_frame (st : TabState) :
    (process_next_item_in_queue st).dupWarnings = st.dupWarnings ∧
    (process_next_item_in_queue st).errorDialogs = st.errorDialogs ∧
    (process_next_item_in_queue st).chooserCount = st.chooserCount ∧
    (process_next_item_in_queue st).validationWarnings = st.validationWarnings ∧
    (process_next_item_in_queue st).queuedLog = st.queuedLog ∧
    (process_next_item_in_queue st).comboRootFolder = st.comboRootFolder ∧
    (process_next_item_in_queue st).comboQualityProfile = st.comboQualityProfile ∧
    (process_next_item_in_queue st).statusThread = st.statusThread ∧
    (process_next_item_in_queue st).foldersThread = st.foldersThread ∧
    (process_next_item_in_queue st).profilesThread = st.profilesThread ∧
    (process_next_item_in_queue st).statusLive = st.statusLive ∧
    (process_next_item_in_queue st).foldersLive = st.foldersLive ∧
    (process_next_item_in_queue st).profilesLive = st.profilesLive ∧
    (process_next_item_in_queue st).currentSearchType = st.currentSearchType ∧
    (process_next_item_in_queue st).advanceCalls = st.advanceCalls + 1 := by
  unfold process_next_item_in_queue run_add_worker run_search_worker
  dsimp only
  repeat' split <;> simp_all

/-- The engine's advance never grows either queue. -/
theorem pn_queues_le (st : TabState) :
    (process_next_item_in_queue st).itemsToAddQueue.length ≤
      st.itemsToAddQueue.length ∧
    (process_next_item_in_queue st).termsToAddQueue.length ≤
      st.termsToAddQueue.length := by
  unfold process_next_item_in_queue run_add_worker run_search_worker
  dsimp only
  by_cases h : st.searchThread.isSome
  · simp [h]
  · cases hi : st.itemsToAddQueue with
    | cons item rest => simp [h, hi]
    | nil =>
        cases ht : st.termsToAddQueue with
        | cons t rest => simp [h, hi, ht]
        | nil => by_cases hc : 0 < st.termsToAddTotalCount <;> simp [h, hi, ht, hc]

/-- Fields `on_item_selected` never changes. -/
theorem ois_frame (st : TabState) (c : Candidate) :
    (on_item_selected st c).searchThread = st.searchThread ∧
    (on_item_selected st c).termsToAddQueue = st.termsToAddQueue ∧
    (on_item_selected st c).comboRootFolder = st.comboRootFolder ∧
    (on_item_selected st c).comboQualityProfile = st.comboQualityProfile ∧
    (on_item_selected st c).currentSearchType = st.currentSearchType ∧
    (on_item_selected st c).advanceCalls = st.advanceCalls ∧
    (on_item_selected st c).chooserCount = st.chooserCount ∧
    (on_item_selected st c).errorDialogs = st.errorDialogs ∧
    (on_item_selected st c).dupWarnings = st.dupWarnings ∧
    (on_item_selected st c).statusThread = st.statusThread ∧
    (on_item_selected st c).foldersThread = st.foldersThread ∧
    (on_item_selected st c).profilesThread = st.profilesThread ∧
    (on_item_selected st c).statusLive = st.statusLive ∧
    (on_item_selected st c).foldersLive = st.foldersLive ∧
    (on_item_selected st c).profilesLive = st.profilesLive ∧
    (on_item_selected st c).searchLive = st.searchLive := by
  unfold on_item_selected
  repeat' split <;> simp_all

/-- Advance leaves everything but the ghost advance counter unchanged while
the shared worker slot is occupied. -/
theorem pn_busy (st : TabState) (op : PendingOp) (h : st.searchThread = some op) :
    (process_next_item_in_queue st).searchThread = some op ∧
    (process_next_item_in_queue st).termsToAddQueue = st.termsToAddQueue ∧
    (process_next_item_in_queue st).itemsToAddQueue = st.itemsToAddQueue ∧
    (process_next_item_in_queue st).searchLive = st.searchLive := by
  unfold process_next_item_in_queue
  dsimp only
  simp [h]

/-- Fact: `_validate_inputs` never touches the worker slots or the live counters. -/
theorem validate_frame (st : TabState) (t : String) :
    (validate_inputs st t).1.searchThread = st.searchThread ∧
    (validate_inputs st t).1.statusThread = st.statusThread ∧
    (validate_inputs st t).1.foldersThread = st.foldersThread ∧
    (validate_inputs st t).1.profilesThread = st.profilesThread ∧
    (validate_inputs st t).1.statusLive = st.statusLive ∧
    (validate_inputs st t).1.foldersLive = st.foldersLive ∧
    (validate_inputs st t).1.profilesLive = st.profilesLive ∧
    (validate_inputs st t).1.searchLive = st.searchLive := by
  unfold validate_inputs
  repeat' split
  all_goals exact ⟨rfl, rfl, rfl, rfl, rfl, rfl, rfl, rfl⟩

/-- No user/bus event (nothing but a queue-operation completion) clears the
shared worker slot: each either leaves it untouched or no-ops through the
busy advance. -/
theorem step_busy_frame (st : TabState) (e : Event) (op : PendingOp)
    (h : st.searchThread = some op) (hnd : e.isQueueDone = false) :
    (step st e).searchThread = some op := by
  cases e with
  | checkStatus =>
      simp only [step]; unfold check_status; split <;> simp [h]
  | refreshFolders =>
      simp only [step]; unfold refresh_root_folders; split <;> simp [h]
  | refreshProfiles =>
      simp only [step]; unfold refresh_quality_profiles; split <;> simp [h]
  | addFromText raw =>
      simp only [step]; unfold add_from_text
      dsimp only
      cases hv : validate_inputs st (pyStrip raw) with
      | mk st1 ok =>
          have hst1 : st1.searchThread = some op := by
            have := (validate_frame st (pyStrip raw)).1
            rw [hv] at this
            exact this.trans h
          cases ok with
          | false => exact hst1
          | true => exact (pn_busy _ op (by simpa using hst1)).1
  | importCsv rows =>
      simp only [step]; unfold import_from_csv
      dsimp only
      cases hv : validate_inputs st "N/A" with
      | mk st1 ok =>
          have hst1 : st1.searchThread = some op := by
            have := (validate_frame st "N/A").1
            rw [hv] at this
            exact this.trans h
          cases ok with
          | false => exact hst1
          | true =>
              dsimp only
              split
              · exact hst1
              · exact (pn_busy _ op (by simpa using hst1)).1
  | startSearchAndAdd t ty =>
      simp only [step]; unfold start_search_and_add
      dsimp only
      split
      · exact h
      · cases hv : validate_inputs st t with
        | mk st1 ok =>
            have hst1 : st1.searchThread = some op := by
              have := (validate_frame st t).1
              rw [hv] at this
              exact this.trans h
            cases ok with
            | false => exact hst1
            | true =>
                cases ty with
                | none => exact (pn_busy _ op (by simpa using hst1)).1
                | some s =>
                    dsimp only
                    split <;> exact (pn_busy _ op (by simpa using hst1)).1
  | statusDone r err =>
      simp only [step]
      unfold on_status_finished refresh_root_folders refresh_quality_profiles
      repeat' split <;> simp_all
  | foldersDone r err =>
      simp only [step]; unfold on_root_folders_finished
      repeat' split <;> simp_all
  | profilesDone r err =>
      simp only [step]; unfold on_quality_profiles_finished
      repeat' split <;> simp_all
  | searchDone r err ch => simp [Event.isQueueDone] at hnd
  | addDone r err => simp [Event.isQueueDone] at hnd

/-!  ## The per-slot worker invariant -/

/-- Each ghost live-worker counter equals the indicator of its thread
attribute: a slot's attribute is non-None exactly while one worker of that
kind is live. -/
def WorkerInv (st : TabState) : Prop :=
  st.statusLive = (if st.statusThread then 1 else 0) ∧
  st.foldersLive = (if st.foldersThread then 1 else 0) ∧
  st.profilesLive = (if st.profilesThread then 1 else 0) ∧
  st.searchLive = (if st.searchThread.isSome then 1 else 0)

theorem workerInv_init : WorkerInv initState := by
  simp [WorkerInv, initState]

theorem workerInv_pn (st : TabState) (h : WorkerInv st) :
    WorkerInv (process_next_item_in_queue st) := by
  unfold WorkerInv at h ⊢
  unfold process_next_item_in_queue run_add_worker run_search_worker
  dsimp only
  repeat' split <;> simp_all

theorem workerInv_ois (st : TabState) (c : Candidate) (h : WorkerInv st) :
    WorkerInv (on_item_selected st c) := by
  unfold WorkerInv at h ⊢
  unfold on_item_selected
  repeat' split <;> simp_all

theorem workerInv_foldl_ois (l : List Candidate) :
    ∀ st : TabState, WorkerInv st → WorkerInv (l.foldl on_item_selected st) := by
  induction l with
  | nil => intro st h; exact h
  | cons c l ih => intro st h; exact ih _ (workerInv_ois st c h)

theorem workerInv_osf (st : TabState) (r : Option (List Candidate)) (e : String)
    (ch : Option (List Nat)) (h : WorkerInv st) :
    WorkerInv (on_search_finished st r e ch) := by
  unfold on_search_finished
  dsimp only
  apply workerInv_pn
  split
  · unfold WorkerInv at h ⊢; simp_all
  · split
    · exact h
    · exact h
    · exact workerInv_ois _ _ h
    · split
      · split
        · apply workerInv_foldl_ois
          unfold WorkerInv at h ⊢; simp_all
        · unfold WorkerInv at h ⊢; simp_all
      · unfold WorkerInv at h ⊢; simp_all

theorem workerInv_oaf (st : TabState) (r : Option Candidate) (e : String)
    (h : WorkerInv st) : WorkerInv (on_add_finished st r e) := by
  unfold WorkerInv at h
  unfold on_add_finished
  dsimp only
  apply workerInv_pn
  unfold WorkerInv
  repeat' split <;> simp_all

theorem workerInv_step (st : TabState) (e : Event) (h : WorkerInv st) :
    WorkerInv (step st e) := by
  cases e with
  | checkStatus =>
      unfold WorkerInv at h ⊢; unfold step check_status
      repeat' split <;> simp_all
  | refreshFolders =>
      unfold WorkerInv at h ⊢; unfold step refresh_root_folders
      repeat' split <;> simp_all
  | refreshProfiles =>
      unfold WorkerInv at h ⊢; unfold step refresh_quality_profiles
      repeat' split <;> simp_all
  | addFromText raw =>
      unfold step add_from_text
      dsimp only
      cases hv : validate_inputs st (pyStrip raw) with
      | mk st1 ok =>
          have h1 : WorkerInv st1 := by
            have := validate_frame st (pyStrip raw)
            rw [hv] at this
            unfold WorkerInv at h ⊢
            simp_all
          cases ok with
          | false => exact h1
          | true => exact workerInv_pn _ (by unfold WorkerInv at h1 ⊢; simp_all)
  | importCsv rows =>
      unfold step import_from_csv
      dsimp only
      cases hv : validate_inputs st "N/A" with
      | mk st1 ok =>
          have h1 : WorkerInv st1 := by
            have := validate_frame st "N/A"
            rw [hv] at this
            unfold WorkerInv at h ⊢
            simp_all
          cases ok with
          | false => exact h1
          | true =>
              dsimp only
              split
              · exact h1
              · exact workerInv_pn _ (by unfold WorkerInv at h1 ⊢; simp_all)
  | startSearchAndAdd t ty =>
      unfold step start_search_and_add
      dsimp only
      split
      · exact h
      · cases hv : validate_inputs st t with
        | mk st1 ok =>
            have h1 : WorkerInv st1 := by
              have := validate_frame st t
              rw [hv] at this
              unfold WorkerInv at h ⊢
              simp_all
            cases ok with
            | false => exact h1
            | true =>
                cases ty with
                | none => exact workerInv_pn _ (by unfold WorkerInv at h1 ⊢; simp_all)
                | some s =>
                    by_cases hs : s ≠ "" <;> simp only [hs] <;>
                      exact workerInv_pn _ (by unfold WorkerInv at h1 ⊢; simp_all [hs])
  | statusDone r err =>
      unfold step on_status_finished refresh_root_folders refresh_quality_profiles
      unfold WorkerInv at h ⊢
      repeat' split <;> simp_all
  | foldersDone r err =>
      unfold step on_root_folders_finished
      unfold WorkerInv at h ⊢
      repeat' split <;> simp_all
  | profilesDone r err =>
      unfold step on_quality_profiles_finished
      unfold WorkerInv at h ⊢
      repeat' split <;> simp_all
  | searchDone r err ch =>
      unfold step
      dsimp only
      split
      · rename_i t heq
        apply workerInv_osf
        unfold WorkerInv at h ⊢
        simp_all
      · exact h
  | addDone r err =>
      unfold step
      dsimp only
      split
      · rename_i it heq
        apply workerInv_oaf
        unfold WorkerInv at h ⊢
        simp_all
      · exact h

theorem workerInv_run (es : List Event) : WorkerInv (run initState es) := by
  suffices h : ∀ st, WorkerInv st → WorkerInv (run st es) from h _ workerInv_init
  induction es with
  | nil => intro st h; exact h
  | cons e es ih => intro st h; exact ih _ (workerInv_step st e h)

/-- Frame facts for a fold of `on_item_selected` over a selection. -/
theorem foldl_ois_frame (l : List Candidate) :
    ∀ st : TabState,
      (l.foldl on_item_selected st).advanceCalls = st.advanceCalls ∧
      (l.foldl on_item_selected st).comboRootFolder = st.comboRootFolder ∧
      (l.foldl on_item_selected st).comboQualityProfile = st.comboQualityProfile ∧
      (l.foldl on_item_selected st).currentSearchType = st.currentSearchType ∧
      (l.foldl on_item_selected st).chooserCount = st.chooserCount ∧
      (l.foldl on_item_selected st).searchThread = st.searchThread ∧
      (l.foldl on_item_selected st).errorDialogs = st.errorDialogs := by
  induction l with
  | nil => intro st; exact ⟨rfl, rfl, rfl, rfl, rfl, rfl, rfl⟩
  | cons c l ih =>
      intro st
      have hc := ois_frame st c
      have hl := ih (on_item_selected st c)
      simp only [List.foldl_cons]
      refine ⟨?_, ?_, ?_, ?_, ?_, ?_, ?_⟩
      · exact hl.1.trans hc.2.2.2.2.2.1
      · exact hl.2.1.trans hc.2.2.1
      · exact hl.2.2.1.trans hc.2.2.2.1
      · exact hl.2.2.2.1.trans hc.2.2.2.2.1
      · exact hl.2.2.2.2.1.trans hc.2.2.2.2.2.2.1
      · exact hl.2.2.2.2.2.1.trans hc.1
      · exact hl.2.2.2.2.2.2.trans hc.2.2.2.2.2.2.2.1

theorem foldl_ois_advance (l : List Candidate) (st : TabState) :
    (l.foldl on_item_selected st).advanceCalls = st.advanceCalls :=
  (foldl_ois_frame l st).1

/-!  ## C1 -/

/-- C1: queue single-flight.  (i) While an operation is outstanding in the
shared slot, advance() starts nothing and leaves both queues unchanged;
(ii) only a queue-operation completion event ever clears the slot;
(iii, iv) each completion runs its callback, which invokes advance() exactly
once; (v) hence at most one queue-driven worker is live in every reachable
state. -/
theorem c1_single_flight :
    (∀ (st : TabState) (op : PendingOp), st.searchThread = some op →
        (process_next_item_in_queue st).searchThread = some op ∧
        (process_next_item_in_queue st).termsToAddQueue = st.termsToAddQueue ∧
        (process_next_item_in_queue st).itemsToAddQueue = st.itemsToAddQueue ∧
        (process_next_item_in_queue st).searchLive = st.searchLive) ∧
    (∀ (st : TabState) (e : Event), st.searchThread.isSome = true →
        (step st e).searchThread = none → e.isQueueDone = true) ∧
    (∀ (st : TabState) (t : String) (r : Option (List Candidate)) (err : String)
        (ch : Option (List Nat)), st.searchThread = some (.search t) →
        (step st (.searchDone r err ch)).advanceCalls = st.advanceCalls + 1) ∧
    (∀ (st : TabState) (it : AddItem) (r : Option Candidate) (err : String),
        st.searchThread = some (.add it) →
        (step st (.addDone r err)).advanceCalls = st.advanceCalls + 1) ∧
    (∀ es : List Event, (run initState es).searchLive ≤ 1) := by
  refine ⟨fun st op h => pn_busy st op h, ?_, ?_, ?_, ?_⟩
  · intro st e hsome hclear
    by_contra hnd
    rw [Bool.not_eq_true] at hnd
    obtain ⟨op, hop⟩ := Option.isSome_iff_exists.mp hsome
    have := step_busy_frame st e op hop hnd
    rw [hclear] at this
    exact Option.noConfusion this
  · intro st t r err ch h
    unfold step
    dsimp only
    rw [h]
    unfold on_search_finished
    dsimp only
    have hadv := fun s => (pn_frame s).2.2.2.2.2.2.2.2.2.2.2.2.2.2
    (repeat' split) <;>
      first
        | rfl
        | simp_all [hadv, (ois_frame _ _).2.2.2.2.2.1, foldl_ois_advance]
  · intro st it r err h
    unfold step
    dsimp only
    rw [h]
    unfold on_add_finished
    dsimp only
    have hadv := fun s => (pn_frame s).2.2.2.2.2.2.2.2.2.2.2.2.2.2
    (repeat' split) <;>
      first
        | rfl
        | simp_all [hadv]
  · intro es
    have h := (workerInv_run es).2.2.2
    rw [h]
    split <;> omega

/-- Witness for C1 at a busy concrete state and a concrete completion. -/
theorem c1_single_flight_witness :
    (process_next_item_in_queue
        { initState with
            searchThread := some (.search "Dune"), searchLive := 1,
            termsToAddQueue := ["Arrival"] }).termsToAddQueue = ["Arrival"] ∧
    (step
        { initState with
            searchThread := some (.search "Dune"), searchLive := 1,
            termsToAddQueue := ["Arrival"] }
        (.searchDone (some []) "" none)).advanceCalls = 1 ∧
    (run initState [.addFromText "Dune"]).searchLive ≤ 1 :=
  ⟨((c1_single_flight.1 _ (.search "Dune") rfl).2.1).trans rfl,
   (c1_single_flight.2.2.1 _ "Dune" (some []) "" none rfl).trans rfl,
   c1_single_flight.2.2.2.2 [.addFromText "Dune"]⟩

/-!  ## C9 -/

/-- Total number of live workers of the tab, over all four slots. -/
def totalLive (st : TabState) : Nat :=
  st.statusLive + st.foldersLive + st.profilesLive + st.searchLive

/-- Counterexample to C9 as stated: after a successful status check the
completion callback starts the root-folder worker and the quality-profile
worker back to back, so the tab has two workers outstanding at once. -/
theorem c9_global_bound_cex :
    totalLive (run initState [.checkStatus, .statusDone (some .up) ""]) = 2 ∧
    (run initState [.checkStatus, .statusDone (some .up) ""]).foldersLive = 1 ∧
    (run initState [.checkStatus, .statusDone (some .up) ""]).profilesLive = 1 := by
  refine ⟨?_, ?_, ?_⟩ <;> rfl

/-- C9 (amended): the bound is per operation kind, not per tab: in every
reachable state each of the four worker slots (status, folders, profiles,
search/add) has at most one live worker. -/
theorem c9_per_slot_single_flight (es : List Event) :
    (run initState es).statusLive ≤ 1 ∧
    (run initState es).foldersLive ≤ 1 ∧
    (run initState es).profilesLive ≤ 1 ∧
    (run initState es).searchLive ≤ 1 := by
  obtain ⟨h1, h2, h3, h4⟩ := workerInv_run es
  rw [h1, h2, h3, h4]
  refine ⟨?_, ?_, ?_, ?_⟩ <;> split <;> omega

/-!  ## C10 -/

/-- C10: worker result discipline of ApiWorker.run.  The task's exception
never escapes (the model is total); a normal return while running emits
finished exactly once with the result and an empty error; a raise while
running emits exactly once with None and the exception's string; after
stop() nothing is emitted; and no emission carries a non-None result
together with a non-empty error. -/
theorem c10_worker_result_discipline {α : Type} (taskName : String)
    (task : Except String (Option α)) (running : Bool) :
    (∀ v, task = .ok v → running = true →
        (apiWorkerRun taskName task running).2 = [(v, "")]) ∧
    (∀ e, task = .error e → running = true →
        (apiWorkerRun taskName task running).2 = [(none, e)]) ∧
    (running = false → (apiWorkerRun taskName task running).2 = []) ∧
    (∀ p ∈ (apiWorkerRun taskName task running).2,
        p.2 = "" ∨ (p.1 = none ∧ p.2 ≠ "")) := by
  refine ⟨?_, ?_, ?_, ?_⟩
  · rintro v rfl rfl; simp [apiWorkerRun]
  · rintro e rfl rfl; simp [apiWorkerRun]
  · rintro rfl; cases task <;> simp [apiWorkerRun]
  · intro p hp
    cases task with
    | ok v =>
        cases running <;> simp [apiWorkerRun] at hp
        simp [hp]
    | error e =>
        cases running <;> simp [apiWorkerRun] at hp
        by_cases he : e = "" <;> simp [hp, he]

/-- Witness for C10 at a concrete task, exception and stopped worker. -/
theorem c10_worker_result_discipline_witness :
    (apiWorkerRun "t" (Except.ok (some 3)) true).2 = [(some 3, "")] ∧
    (apiWorkerRun "t" (Except.error "boom" : Except String (Option Nat)) true).2 =
      [(none, "boom")] ∧
    (apiWorkerRun "t" (Except.ok (some (3 : Nat))) false).2 = [] :=
  ⟨(c10_worker_result_discipline "t" (Except.ok (some 3)) true).1 (some 3) rfl rfl,
   (c10_worker_result_discipline "t" (Except.error "boom") true).2.1 "boom" rfl rfl,
   (c10_worker_result_discipline "t" (Except.ok (some 3)) false).2.2.1 rfl⟩

/-!  ## C7 -/

/-- C7: with the service configuration present, adding an item whose
originating search type is "album" makes the Lidarr add task raise the
usage ValueError while building the payload, and no HTTP creation call is
issued. -/
theorem c7_album_add_rejected (cfg : Except String ArrCfg) (c : ArrCfg)
    (item : AddItem) (net : LidarrAddPayload → Except String Candidate)
    (hcfg : cfg = .ok c) (halbum : item.search_type = "album") :
    taskAddItem lidarrBuildAddPayload cfg item net =
      (.error albumAddError, 0) := by
  subst hcfg
  simp [taskAddItem, lidarrBuildAddPayload, halbum]

/-- Witness for C7 at a concrete album item. -/
theorem c7_album_add_rejected_witness :
    taskAddItem lidarrBuildAddPayload (.ok ⟨"http://lidarr", "key"⟩)
      (mkAddItem ⟨1, "/music"⟩ ⟨5⟩ "album" { title := some "OK Computer" })
      (fun _ => .ok { artistName := some "Radiohead" }) =
      (.error albumAddError, 0) :=
  c7_album_add_rejected _ ⟨"http://lidarr", "key"⟩ _ _ rfl rfl

/-!  ## C6 -/

/-- C6: a failed add whose error message contains "400" and duplicate
wording ("already"/"exist", case-insensitively) only logs a warning; any
other failure shows an error dialog; in both cases nothing is queued or
re-queued and the engine advances exactly once. -/
theorem c6_duplicate_add_handling (st : TabState) (result : Option Candidate)
    (error : String) :
    ((error ≠ "" ∨ result = none) → isDuplicateError error = true →
        (on_add_finished st result error).dupWarnings = st.dupWarnings + 1 ∧
        (on_add_finished st result error).errorDialogs = st.errorDialogs) ∧
    ((error ≠ "" ∨ result = none) → isDuplicateError error = false →
        (on_add_finished st result error).errorDialogs = st.errorDialogs + 1 ∧
        (on_add_finished st result error).dupWarnings = st.dupWarnings) ∧
    (on_add_finished st result error).advanceCalls = st.advanceCalls + 1 ∧
    (on_add_finished st result error).queuedLog = st.queuedLog ∧
    (on_add_finished st result error).itemsToAddQueue.length ≤
      st.itemsToAddQueue.length := by
  unfold on_add_finished
  by_cases hfail : error ≠ "" ∨ result = none
  · by_cases hdup : isDuplicateError error = true
    · simp only [if_pos hfail, if_pos hdup]
      refine ⟨fun _ _ => ?_, fun _ h => by simp [h] at hdup, ?_, ?_, ?_⟩
      · exact ⟨(pn_frame _).1, (pn_frame _).2.1⟩
      · exact (pn_frame _).2.2.2.2.2.2.2.2.2.2.2.2.2.2
      · exact (pn_frame _).2.2.2.2.1
      · exact (pn_queues_le _).1
    · simp only [if_pos hfail, if_neg hdup]
      refine ⟨fun _ h => absurd h hdup, fun _ _ => ?_, ?_, ?_, ?_⟩
      · exact ⟨(pn_frame _).2.1, (pn_frame _).1⟩
      · exact (pn_frame _).2.2.2.2.2.2.2.2.2.2.2.2.2.2
      · exact (pn_frame _).2.2.2.2.1
      · exact (pn_queues_le _).1
  · simp only [if_neg hfail]
    refine ⟨fun h _ => absurd h hfail, fun h _ => absurd h hfail, ?_, ?_, ?_⟩
    · exact (pn_frame _).2.2.2.2.2.2.2.2.2.2.2.2.2.2
    · exact (pn_frame _).2.2.2.2.1
    · exact (pn_queues_le _).1

/-- Witness for C6: a 400 already-exists failure at a concrete state warns
without an error dialog, and a plain failure raises the dialog count. -/
theorem c6_duplicate_add_handling_witness :
    (on_add_finished initState none "HTTP 400: This movie already exists").dupWarnings =
      1 ∧
    (on_add_finished initState none "HTTP 400: This movie already exists").errorDialogs =
      0 ∧
    (on_add_finished initState none "HTTP 500: server error").errorDialogs = 1 :=
  ⟨((c6_duplicate_add_handling initState none
        "HTTP 400: This movie already exists").1 (.inr rfl) (by decide)).1,
   ((c6_duplicate_add_handling initState none
        "HTTP 400: This movie already exists").1 (.inr rfl) (by decide)).2,
   ((c6_duplicate_add_handling initState none
        "HTTP 500: server error").2.1 (.inr rfl) (by decide)).1⟩

/-!  ## C2 -/

/-- C2: with the single-flight slot free, advance() on a state with pending
add items dispatches the head add item (terms untouched); a search term is
dispatched only from states whose add-items sequence is empty. -/
theorem c2_queue_priority :
    (∀ (st : TabState) (item : AddItem) (rest : List AddItem),
        st.searchThread = none → st.itemsToAddQueue = item :: rest →
        (process_next_item_in_queue st).searchThread = some (.add item) ∧
        (process_next_item_in_queue st).itemsToAddQueue = rest ∧
        (process_next_item_in_queue st).termsToAddQueue = st.termsToAddQueue) ∧
    (∀ (st : TabState) (t : String),
        st.searchThread = none →
        (process_next_item_in_queue st).searchThread = some (.search t) →
        st.itemsToAddQueue = []) := by
  constructor
  · intro st item rest hfree hitems
    unfold process_next_item_in_queue run_add_worker
    simp [hfree, hitems]
  · intro st t hfree hdisp
    cases hitems : st.itemsToAddQueue with
    | nil => rfl
    | cons item rest =>
        unfold process_next_item_in_queue run_add_worker at hdisp
        simp [hfree, hitems] at hdisp

/-- Witness for C2 at a concrete state holding one add item and one term. -/
theorem c2_queue_priority_witness :
    (process_next_item_in_queue
        { initState with
            itemsToAddQueue := [mkAddItem ⟨1, "/movies"⟩ ⟨5⟩ "item" {}]
            termsToAddQueue := ["Dune"] }).searchThread =
      some (.add (mkAddItem ⟨1, "/movies"⟩ ⟨5⟩ "item" {})) ∧
    (process_next_item_in_queue
        { initState with
            itemsToAddQueue := [mkAddItem ⟨1, "/movies"⟩ ⟨5⟩ "item" {}]
            termsToAddQueue := ["Dune"] }).termsToAddQueue = ["Dune"] :=
  ⟨(c2_queue_priority.1 _ _ _ rfl rfl).1,
   ((c2_queue_priority.1 _ _ _ rfl rfl).2.2).trans rfl⟩

/-!  ## C4 -/

/-- C4: secondary-indexer containment in `_task_search_item` for the video
services.  Any error of the overall resolution comes from the primary path
(secondary-path exceptions are caught); if the secondary phase raises or
yields no usable candidates the primary direct lookup is attempted; if it
yields at least one candidate, that result is returned and the primary
lookup is skipped. -/
theorem c4_secondary_indexer_containment (svc : String)
    (cfg : Except String ArrCfg) (prowlarr : Except String (List ProwlarrItem))
    (lookup : String → Except String (List Candidate))
    (direct : Except String (List Candidate))
    (hsvc : svc = "sonarr" ∨ svc = "radarr") :
    (∀ e, (taskSearchItem svc cfg prowlarr lookup direct).1 = .error e →
        primaryLookup cfg direct = .error e) ∧
    (∀ e, secondaryResult svc cfg prowlarr lookup = .error e →
        taskSearchItem svc cfg prowlarr lookup direct =
          (primaryLookup cfg direct, true)) ∧
    (secondaryResult svc cfg prowlarr lookup = .ok [] →
        taskSearchItem svc cfg prowlarr lookup direct =
          (primaryLookup cfg direct, true)) ∧
    (∀ (c : Candidate) (cs : List Candidate),
        secondaryResult svc cfg prowlarr lookup = .ok (c :: cs) →
        taskSearchItem svc cfg prowlarr lookup direct =
          (.ok (c :: cs), false)) := by
  have htask : taskSearchItem svc cfg prowlarr lookup direct =
      (match secondaryResult svc cfg prowlarr lookup with
       | .ok (h :: t) => ((Except.ok (h :: t) : Except String (List Candidate)), false)
       | .ok [] => (primaryLookup cfg direct, true)
       | .error _ => (primaryLookup cfg direct, true)) := by
    unfold taskSearchItem
    rw [if_pos hsvc]
  refine ⟨?_, ?_, ?_, ?_⟩
  · intro e he
    rw [htask] at he
    cases hsec : secondaryResult svc cfg prowlarr lookup with
    | error e0 => rw [hsec] at he; exact he
    | ok l =>
        cases l with
        | nil => rw [hsec] at he; exact he
        | cons c cs => rw [hsec] at he; simp at he
  · intro e he; rw [htask, he]
  · intro he; rw [htask, he]
  · intro c cs he; rw [htask, he]

/-- Witness for C4: a raising Prowlarr search on Sonarr falls back to the
direct lookup, whose result is returned with the primary path attempted. -/
theorem c4_secondary_indexer_containment_witness :
    taskSearchItem "sonarr" (.ok ⟨"http://s", "k"⟩) (.error "prowlarr down")
        (fun _ => .ok []) (.ok [{ title := some "direct" }]) =
      (.ok [{ title := some "direct" }], true) :=
  ((c4_secondary_indexer_containment "sonarr" (.ok ⟨"http://s", "k"⟩)
      (.error "prowlarr down") (fun _ => .ok [])
      (.ok [{ title := some "direct" }]) (.inl rfl)).2.1
    "prowlarr down" rfl).trans rfl

/-!  ## C5 -/

/-- With no root folder configured, `_validate_inputs` rejects any input
and only counts a warning (whichever branch fires, the result is the
same). -/
theorem validate_reject_root (st : TabState) (x : String)
    (hroot : st.comboRootFolder = []) :
    validate_inputs st x =
      ({ st with validationWarnings := st.validationWarnings + 1 }, false) := by
  unfold validate_inputs
  repeat' split <;> simp_all

/-- A pending add item used by concrete states below. -/
def pendingItem : AddItem :=
  mkAddItem ⟨1, "/movies"⟩ ⟨5⟩ "item" { title := some "Dune" }

/-- A tab state with both destination parameters selected and one term and
one resolved add item already pending. -/
def c5State : TabState :=
  { initState with
      comboRootFolder := [⟨1, "/movies"⟩]
      comboQualityProfile := [⟨5⟩]
      termsToAddQueue := ["Arrival"]
      itemsToAddQueue := [pendingItem] }

/-- Counterexample to C5 as stated: enqueuing a new term with both a root
folder and a quality profile selected does NOT preserve the pending add
item or the pending term — `_validate_inputs` clears both sequences and the
new term replaces them. -/
theorem c5_enqueue_cex :
    c5State.termsToAddQueue = ["Arrival"] ∧
    c5State.itemsToAddQueue = [pendingItem] ∧
    c5State.comboRootFolder ≠ [] ∧
    c5State.comboQualityProfile ≠ [] ∧
    (add_from_text c5State "Interstellar").itemsToAddQueue = [] ∧
    (add_from_text c5State "Interstellar").termsToAddQueue = [] ∧
    (add_from_text c5State "Interstellar").searchThread =
      some (.search "Interstellar") := by
  refine ⟨rfl, rfl, ?_, ?_, ?_, ?_, ?_⟩ <;> decide

/-- Fact: advance on a busy tab also leaves the running total unchanged. -/
theorem pn_busy_total (st : TabState) (op : PendingOp)
    (h : st.searchThread = some op) :
    (process_next_item_in_queue st).termsToAddTotalCount =
      st.termsToAddTotalCount := by
  unfold process_next_item_in_queue
  dsimp only
  simp [h]

/-- With no quality profile configured, `_validate_inputs` likewise rejects
any input and only counts a warning (whichever branch fires, the result is
the same). -/
theorem validate_reject_profile (st : TabState) (x : String)
    (hprof : st.comboQualityProfile = []) :
    validate_inputs st x =
      ({ st with validationWarnings := st.validationWarnings + 1 }, false) := by
  unfold validate_inputs
  repeat' split <;> simp_all

/-- A busy tab (a resolve in flight) with a pending term, a pending
resolved add item and both destination parameters selected. -/
def busyC5State : TabState :=
  { c5State with searchThread := some (.search "Dune"), searchLive := 1 }

/-- C5 (amended): a successful enqueue (text, CSV or external add request)
clears both pending sequences and replaces the pending-search sequence with
exactly the new terms — on an idle tab the head is dispatched at once, on a
busy tab the new terms stay queued with the worker slot untouched; when
either the root folder or the quality profile is missing, a validation
warning is reported and both sequences, the worker slot and the total are
left unchanged (in particular an empty queue stays empty). -/
theorem c5_enqueue_replaces :
    (∀ (st : TabState) (raw : String),
        pyStrip raw ≠ "" → st.comboRootFolder ≠ [] →
        st.comboQualityProfile ≠ [] → st.searchThread = none →
        (add_from_text st raw).searchThread = some (.search (pyStrip raw)) ∧
        (add_from_text st raw).termsToAddQueue = [] ∧
        (add_from_text st raw).itemsToAddQueue = [] ∧
        (add_from_text st raw).termsToAddTotalCount = 1 ∧
        (add_from_text st raw).currentSearchTerm = some (pyStrip raw)) ∧
    (∀ (st : TabState) (raw : String) (op : PendingOp),
        pyStrip raw ≠ "" → st.comboRootFolder ≠ [] →
        st.comboQualityProfile ≠ [] → st.searchThread = some op →
        (add_from_text st raw).termsToAddQueue = [pyStrip raw] ∧
        (add_from_text st raw).itemsToAddQueue = [] ∧
        (add_from_text st raw).searchThread = some op ∧
        (add_from_text st raw).termsToAddTotalCount = 1) ∧
    (∀ (st : TabState) (rows : List (List String)) (t : String) (ts : List String),
        csvTerms rows = t :: ts → st.comboRootFolder ≠ [] →
        st.comboQualityProfile ≠ [] → st.searchThread = none →
        (import_from_csv st rows).searchThread = some (.search t) ∧
        (import_from_csv st rows).termsToAddQueue = ts ∧
        (import_from_csv st rows).itemsToAddQueue = [] ∧
        (import_from_csv st rows).termsToAddTotalCount = (t :: ts).length) ∧
    (∀ (st : TabState) (rows : List (List String)) (op : PendingOp),
        csvTerms rows ≠ [] → st.comboRootFolder ≠ [] →
        st.comboQualityProfile ≠ [] → st.searchThread = some op →
        (import_from_csv st rows).termsToAddQueue = csvTerms rows ∧
        (import_from_csv st rows).itemsToAddQueue = [] ∧
        (import_from_csv st rows).searchThread = some op ∧
        (import_from_csv st rows).termsToAddTotalCount =
          (csvTerms rows).length) ∧
    (∀ (st : TabState) (t : String),
        t ≠ "" → st.comboRootFolder ≠ [] → st.comboQualityProfile ≠ [] →
        st.searchThread = none →
        (start_search_and_add st t none).searchThread = some (.search t) ∧
        (start_search_and_add st t none).termsToAddQueue = [] ∧
        (start_search_and_add st t none).itemsToAddQueue = []) ∧
    (∀ (st : TabState) (t : String) (op : PendingOp),
        t ≠ "" → st.comboRootFolder ≠ [] → st.comboQualityProfile ≠ [] →
        st.searchThread = some op →
        (start_search_and_add st t none).termsToAddQueue = [t] ∧
        (start_search_and_add st t none).itemsToAddQueue = [] ∧
        (start_search_and_add st t none).searchThread = some op) ∧
    (∀ (st : TabState) (raw : String),
        st.comboRootFolder = [] ∨ st.comboQualityProfile = [] →
        (add_from_text st raw).termsToAddQueue = st.termsToAddQueue ∧
        (add_from_text st raw).itemsToAddQueue = st.itemsToAddQueue ∧
        (add_from_text st raw).searchThread = st.searchThread ∧
        (add_from_text st raw).validationWarnings = st.validationWarnings + 1) ∧
    (∀ (st : TabState) (rows : List (List String)),
        st.comboRootFolder = [] ∨ st.comboQualityProfile = [] →
        (import_from_csv st rows).termsToAddQueue = st.termsToAddQueue ∧
        (import_from_csv st rows).itemsToAddQueue = st.itemsToAddQueue ∧
        (import_from_csv st rows).searchThread = st.searchThread ∧
        (import_from_csv st rows).validationWarnings =
          st.validationWarnings + 1) ∧
    (∀ (st : TabState) (t : String) (ty : Option String),
        t ≠ "" →
        st.comboRootFolder = [] ∨ st.comboQualityProfile = [] →
        (start_search_and_add st t ty).termsToAddQueue = st.termsToAddQueue ∧
        (start_search_and_add st t ty).itemsToAddQueue = st.itemsToAddQueue ∧
        (start_search_and_add st t ty).searchThread = st.searchThread ∧
        (start_search_and_add st t ty).validationWarnings =
          st.validationWarnings + 1) := by
  refine ⟨?_, ?_, ?_, ?_, ?_, ?_, ?_, ?_, ?_⟩
  · intro st raw hterm hroot hprof hidle
    have h1 : validate_inputs st (pyStrip raw) =
        ({ st with termsToAddQueue := [], itemsToAddQueue := [] }, true) := by
      unfold validate_inputs
      simp [hterm, List.length_eq_zero, hroot, hprof]
    unfold add_from_text
    dsimp only
    rw [h1]
    unfold process_next_item_in_queue run_search_worker
    dsimp only
    simp [hidle]
  · intro st raw op hterm hroot hprof hbusy
    have h1 : validate_inputs st (pyStrip raw) =
        ({ st with termsToAddQueue := [], itemsToAddQueue := [] }, true) := by
      unfold validate_inputs
      simp [hterm, List.length_eq_zero, hroot, hprof]
    unfold add_from_text
    dsimp only
    rw [h1]
    refine ⟨?_, ?_, ?_, ?_⟩
    · exact ((pn_busy _ op (by simpa using hbusy)).2.1).trans rfl
    · exact ((pn_busy _ op (by simpa using hbusy)).2.2.1).trans rfl
    · exact (pn_busy _ op (by simpa using hbusy)).1
    · exact (pn_busy_total _ op (by simpa using hbusy)).trans rfl
  · intro st rows t ts hterms hroot hprof hidle
    have h1 : validate_inputs st "N/A" =
        ({ st with termsToAddQueue := [], itemsToAddQueue := [] }, true) := by
      unfold validate_inputs
      simp [List.length_eq_zero, hroot, hprof]
    unfold import_from_csv
    dsimp only
    rw [h1]
    dsimp only
    rw [hterms]
    simp only [reduceCtorEq, if_false]
    unfold process_next_item_in_queue run_search_worker
    dsimp only
    simp [hidle]
  · intro st rows op hne hroot hprof hbusy
    have h1 : validate_inputs st "N/A" =
        ({ st with termsToAddQueue := [], itemsToAddQueue := [] }, true) := by
      unfold validate_inputs
      simp [List.length_eq_zero, hroot, hprof]
    unfold import_from_csv
    dsimp only
    rw [h1]
    dsimp only
    rw [if_neg hne]
    refine ⟨?_, ?_, ?_, ?_⟩
    · exact ((pn_busy _ op (by simpa using hbusy)).2.1).trans rfl
    · exact ((pn_busy _ op (by simpa using hbusy)).2.2.1).trans rfl
    · exact (pn_busy _ op (by simpa using hbusy)).1
    · exact (pn_busy_total _ op (by simpa using hbusy)).trans rfl
  · intro st t hterm hroot hprof hidle
    have h1 : validate_inputs st t =
        ({ st with termsToAddQueue := [], itemsToAddQueue := [] }, true) := by
      unfold validate_inputs
      simp [hterm, List.length_eq_zero, hroot, hprof]
    unfold start_search_and_add
    dsimp only
    rw [if_neg hterm, h1]
    unfold process_next_item_in_queue run_search_worker
    dsimp only
    simp [hidle]
  · intro st t op hterm hroot hprof hbusy
    have h1 : validate_inputs st t =
        ({ st with termsToAddQueue := [], itemsToAddQueue := [] }, true) := by
      unfold validate_inputs
      simp [hterm, List.length_eq_zero, hroot, hprof]
    unfold start_search_and_add
    dsimp only
    rw [if_neg hterm, h1]
    refine ⟨?_, ?_, ?_⟩
    · exact ((pn_busy _ op (by simpa using hbusy)).2.1).trans rfl
    · exact ((pn_busy _ op (by simpa using hbusy)).2.2.1).trans rfl
    · exact (pn_busy _ op (by simpa using hbusy)).1
  · intro st raw hmiss
    unfold add_from_text
    dsimp only
    cases hmiss with
    | inl hroot =>
        rw [validate_reject_root st _ hroot]
        exact ⟨rfl, rfl, rfl, rfl⟩
    | inr hprof =>
        rw [validate_reject_profile st _ hprof]
        exact ⟨rfl, rfl, rfl, rfl⟩
  · intro st rows hmiss
    unfold import_from_csv
    dsimp only
    cases hmiss with
    | inl hroot =>
        rw [validate_reject_root st _ hroot]
        exact ⟨rfl, rfl, rfl, rfl⟩
    | inr hprof =>
        rw [validate_reject_profile st _ hprof]
        exact ⟨rfl, rfl, rfl, rfl⟩
  · intro st t ty hterm hmiss
    unfold start_search_and_add
    dsimp only
    rw [if_neg hterm]
    cases hmiss with
    | inl hroot =>
        rw [validate_reject_root st _ hroot]
        exact ⟨rfl, rfl, rfl, rfl⟩
    | inr hprof =>
        rw [validate_reject_profile st _ hprof]
        exact ⟨rfl, rfl, rfl, rfl⟩

/-- Witness for C5 (amended) at concrete states: a valid idle enqueue
dispatches the new term; a valid enqueue on a busy tab with a pending term
and a pending add item replaces both queues while the slot stays untouched;
the CSV scenario with no root folder rejects both terms with a warning and
the queue stays empty; a text enqueue with no quality profile is rejected
the same way. -/
theorem c5_enqueue_replaces_witness :
    (add_from_text
        { initState with
            comboRootFolder := [⟨1, "/movies"⟩]
            comboQualityProfile := [⟨5⟩] } "Interstellar").searchThread =
      some (.search "Interstellar") ∧
    (add_from_text busyC5State "Interstellar").termsToAddQueue =
      ["Interstellar"] ∧
    (add_from_text busyC5State "Interstellar").itemsToAddQueue = [] ∧
    (add_from_text busyC5State "Interstellar").searchThread =
      some (.search "Dune") ∧
    (import_from_csv { initState with comboQualityProfile := [⟨5⟩] }
        [["Interstellar"], ["Arrival"]]).termsToAddQueue = [] ∧
    (import_from_csv { initState with comboQualityProfile := [⟨5⟩] }
        [["Interstellar"], ["Arrival"]]).validationWarnings = 1 ∧
    (add_from_text { initState with comboRootFolder := [⟨1, "/movies"⟩] }
        "Dune").termsToAddQueue = [] ∧
    (add_from_text { initState with comboRootFolder := [⟨1, "/movies"⟩] }
        "Dune").validationWarnings = 1 := by
  refine ⟨?_, ?_, ?_, ?_, ?_, ?_, ?_, ?_⟩
  · exact ((c5_enqueue_replaces.1 _ "Interstellar" (by decide) (by decide)
      (by decide) rfl).1).trans (by decide)
  · exact ((c5_enqueue_replaces.2.1 busyC5State "Interstellar"
      (.search "Dune") (by decide) (by decide) (by decide) rfl).1).trans
      (by decide)
  · exact (c5_enqueue_replaces.2.1 busyC5State "Interstellar"
      (.search "Dune") (by decide) (by decide) (by decide) rfl).2.1
  · exact (c5_enqueue_replaces.2.1 busyC5State "Interstellar"
      (.search "Dune") (by decide) (by decide) (by decide) rfl).2.2.1
  · exact ((c5_enqueue_replaces.2.2.2.2.2.2.2.1 _
      [["Interstellar"], ["Arrival"]] (.inl rfl)).1).trans rfl
  · exact ((c5_enqueue_replaces.2.2.2.2.2.2.2.1 _
      [["Interstellar"], ["Arrival"]] (.inl rfl)).2.2.2).trans rfl
  · exact ((c5_enqueue_replaces.2.2.2.2.2.2.1 _ "Dune" (.inr rfl)).1).trans rfl
  · exact ((c5_enqueue_replaces.2.2.2.2.2.2.1 _ "Dune"
      (.inr rfl)).2.2.2).trans rfl

/-!  ## C3 -/

/-- With both combos populated, `on_item_selected` appends exactly one
PendingAddItem built from their current data. -/
theorem ois_queue (st : TabState) (c : Candidate) (root : RootFolder)
    (rtl : List RootFolder) (prof : Profile) (ptl : List Profile)
    (hr : st.comboRootFolder = root :: rtl)
    (hp : st.comboQualityProfile = prof :: ptl) :
    on_item_selected st c =
      { st with
        itemsToAddQueue :=
          st.itemsToAddQueue ++ [mkAddItem root prof st.currentSearchType c]
        queuedLog :=
          st.queuedLog ++ [mkAddItem root prof st.currentSearchType c] } := by
  unfold on_item_selected
  rw [hr, hp]
  rfl

/-- Folding `on_item_selected` over a selection queues exactly one
PendingAddItem per selected candidate, in order. -/
theorem foldl_ois_queue (l : List Candidate) :
    ∀ (st : TabState) (root : RootFolder) (rtl : List RootFolder)
      (prof : Profile) (ptl : List Profile),
      st.comboRootFolder = root :: rtl → st.comboQualityProfile = prof :: ptl →
      (l.foldl on_item_selected st).queuedLog =
        st.queuedLog ++ l.map (mkAddItem root prof st.currentSearchType) ∧
      (l.foldl on_item_selected st).itemsToAddQueue =
        st.itemsToAddQueue ++ l.map (mkAddItem root prof st.currentSearchType) := by
  induction l with
  | nil => intro st root rtl prof ptl hr hp; simp
  | cons c l ih =>
      intro st root rtl prof ptl hr hp
      rw [List.foldl_cons, ois_queue st c root rtl prof ptl hr hp]
      obtain ⟨h1, h2⟩ := ih
        { st with
          itemsToAddQueue :=
            st.itemsToAddQueue ++ [mkAddItem root prof st.currentSearchType c]
          queuedLog :=
            st.queuedLog ++ [mkAddItem root prof st.currentSearchType c] }
        root rtl prof ptl (by simpa using hr) (by simpa using hp)
      rw [h1, h2]
      simp [List.append_assoc]

/-- C3: disambiguation policy of `on_search_finished` when both destination
combos are populated.  Zero candidates queue nothing and never open the
chooser; one candidate is queued directly without the chooser; two or more
candidates open the chooser exactly once, and exactly the selected subset
(empty on cancel) is queued, one PendingAddItem per selected candidate; and
every branch, the error branch included, invokes advance() exactly once. -/
theorem c3_disambiguation_policy (st : TabState) (root : RootFolder)
    (rtl : List RootFolder) (prof : Profile) (ptl : List Profile)
    (hr : st.comboRootFolder = root :: rtl)
    (hp : st.comboQualityProfile = prof :: ptl) :
    (∀ choice,
        (on_search_finished st (some []) "" choice).queuedLog = st.queuedLog ∧
        (on_search_finished st (some []) "" choice).chooserCount =
          st.chooserCount) ∧
    (∀ c choice,
        (on_search_finished st (some [c]) "" choice).queuedLog =
          st.queuedLog ++ [mkAddItem root prof st.currentSearchType c] ∧
        (on_search_finished st (some [c]) "" choice).chooserCount =
          st.chooserCount) ∧
    (∀ c1 c2 cs,
        (on_search_finished st (some (c1 :: c2 :: cs)) "" none).queuedLog =
          st.queuedLog ∧
        (on_search_finished st (some (c1 :: c2 :: cs)) "" none).chooserCount =
          st.chooserCount + 1) ∧
    (∀ c1 c2 cs rows,
        (on_search_finished st (some (c1 :: c2 :: cs)) "" (some rows)).queuedLog =
          st.queuedLog ++
            (rows.filterMap fun i => (c1 :: c2 :: cs)[i]?).map
              (mkAddItem root prof st.currentSearchType) ∧
        (on_search_finished st (some (c1 :: c2 :: cs)) ""
            (some rows)).chooserCount = st.chooserCount + 1) ∧
    (∀ result error choice,
        (on_search_finished st result error choice).advanceCalls =
          st.advanceCalls + 1) := by
  have hlog := fun s => (pn_frame s).2.2.2.2.1
  have hch := fun s => (pn_frame s).2.2.1
  have hadv := fun s => (pn_frame s).2.2.2.2.2.2.2.2.2.2.2.2.2.2
  refine ⟨?_, ?_, ?_, ?_, ?_⟩
  · intro choice
    unfold on_search_finished
    dsimp only
    rw [if_neg (by simp)]
    exact ⟨(hlog _).trans rfl, (hch _).trans rfl⟩
  · intro c choice
    unfold on_search_finished
    dsimp only
    rw [if_neg (by simp)]
    constructor
    · rw [hlog _, ois_queue st c root rtl prof ptl hr hp]
    · rw [hch _, ois_queue st c root rtl prof ptl hr hp]
  · intro c1 c2 cs
    unfold on_search_finished
    dsimp only
    rw [if_neg (by simp)]
    exact ⟨(hlog _).trans rfl, (hch _).trans rfl⟩
  · intro c1 c2 cs rows
    unfold on_search_finished
    dsimp only
    rw [if_neg (by simp)]
    by_cases hsel : (rows.filterMap fun i => (c1 :: c2 :: cs)[i]?) = []
    · rw [if_neg (by simp [hsel])]
      constructor
      · rw [hlog _]
        simp [hsel]
      · exact (hch _).trans rfl
    · rw [if_pos hsel]
      obtain ⟨h1, _⟩ := foldl_ois_queue _
        { st with chooserCount := st.chooserCount + 1 } root rtl prof ptl
        (by simpa using hr) (by simpa using hp)
      constructor
      · rw [hlog _, h1]
      · rw [hch _, (foldl_ois_frame _ _).2.2.2.2.1]
  · intro result error choice
    unfold on_search_finished
    dsimp only
    (repeat' split) <;>
      first
        | rfl
        | simp_all [hadv, (ois_frame _ _).2.2.2.2.2.1, foldl_ois_advance]

/-- A tab state with both destination parameters selected, for the C3
witness. -/
def selState : TabState :=
  { initState with
      comboRootFolder := [⟨2, "/tv"⟩]
      comboQualityProfile := [⟨7⟩] }

/-- Witness for C3: a single-candidate resolution at a concrete state
queues exactly that candidate and never opens the chooser; a two-candidate
resolution with a cancelled dialog queues nothing and opens it once. -/
theorem c3_disambiguation_policy_witness :
    (on_search_finished selState (some [{ title := some "Dune" }]) "" none).queuedLog =
      [mkAddItem ⟨2, "/tv"⟩ ⟨7⟩ "item" { title := some "Dune" }] ∧
    (on_search_finished selState (some [{ title := some "Dune" }]) ""
        none).chooserCount = 0 ∧
    (on_search_finished selState
        (some [{ title := some "Dune" }, { title := some "Dune 2" }]) ""
        none).queuedLog = [] ∧
    (on_search_finished selState
        (some [{ title := some "Dune" }, { title := some "Dune 2" }]) ""
        none).chooserCount = 1 :=
  ⟨(((c3_disambiguation_policy selState _ [] _ [] rfl rfl).2.1 _ none).1).trans rfl,
   (((c3_disambiguation_policy selState _ [] _ [] rfl rfl).2.1 _ none).2).trans rfl,
   (((c3_disambiguation_policy selState _ [] _ [] rfl rfl).2.2.1 _ _ []).1).trans rfl,
   (((c3_disambiguation_policy selState _ [] _ [] rfl rfl).2.2.1 _ _ []).2).trans rfl⟩

/-!  ## C8 -/

theorem dedupFirst_nil : dedupFirst [] = [] := by
  unfold dedupFirst
  rfl

theorem dedupFirst_cons (a : String) (l : List String) :
    dedupFirst (a :: l) = a :: dedupFirst (l.filter fun b => !(b == a)) := by
  rw [dedupFirst.eq_def]

/-- One-step unfolding: a result with no identifier is skipped. -/
theorem crossRefGo_cons_none {svc : String}
    {lookup : String → Except String (List Candidate)} {item : ProwlarrItem}
    (hx : extractLookupId svc item = none) (rest : List ProwlarrItem)
    (seen : List String) (acc : List Candidate) (calls : List String) :
    crossRefGo svc lookup (item :: rest) seen acc calls =
      crossRefGo svc lookup rest seen acc calls := by
  rw [crossRefGo.eq_def]
  dsimp only
  rw [hx]

/-- One-step unfolding: an empty or already-seen identifier is skipped. -/
theorem crossRefGo_cons_skip {svc : String}
    {lookup : String → Except String (List Candidate)} {item : ProwlarrItem}
    {lid : String} {seen : List String}
    (hx : extractLookupId svc item = some lid)
    (hskip : (lid == "" || seen.contains lid) = true) (rest : List ProwlarrItem)
    (acc : List Candidate) (calls : List String) :
    crossRefGo svc lookup (item :: rest) seen acc calls =
      crossRefGo svc lookup rest seen acc calls := by
  rw [crossRefGo.eq_def]
  dsimp only
  rw [hx]
  dsimp only
  rw [if_pos hskip]

/-- One-step unfolding: a fresh identifier is looked up once, marked seen,
and only the head of a non-empty response is collected. -/
theorem crossRefGo_cons_fresh {svc : String}
    {lookup : String → Except String (List Candidate)} {item : ProwlarrItem}
    {lid : String} {seen : List String}
    (hx : extractLookupId svc item = some lid)
    (hfresh : (lid == "" || seen.contains lid) = false) (rest : List ProwlarrItem)
    (acc : List Candidate) (calls : List String) :
    crossRefGo svc lookup (item :: rest) seen acc calls =
      (match lookup lid with
       | .ok (h :: _) =>
           crossRefGo svc lookup rest (lid :: seen) (acc ++ [h]) (calls ++ [lid])
       | .ok [] => crossRefGo svc lookup rest (lid :: seen) acc (calls ++ [lid])
       | .error _ =>
           crossRefGo svc lookup rest (lid :: seen) acc (calls ++ [lid])) := by
  rw [crossRefGo.eq_def]
  dsimp only
  rw [hx]
  dsimp only
  rw [if_neg (by rw [hfresh]; exact Bool.false_ne_true)]

/-- Filtering out one freshly seen identifier extends the seen-set filter. -/
theorem filter_seen_cons (l : List String) (lid : String) (seen : List String) :
    ((l.filter fun i => !(i == "") && !(seen.contains i)).filter
        fun b => !(b == lid)) =
      l.filter fun i => !(i == "") && !((lid :: seen).contains i) := by
  rw [List.filter_filter]
  apply List.filter_congr
  intro b _
  rw [List.contains_cons]
  cases b == lid <;> cases b == "" <;> cases seen.contains b <;> rfl

/-- The cross-reference loop, with any starting accumulators and seen-set,
equals the declarative description: deduplicated fresh identifiers looked up
once each, first hits collected in order. -/
theorem crossRefGo_spec (svc : String)
    (lookup : String → Except String (List Candidate))
    (items : List ProwlarrItem) :
    ∀ (seen : List String) (acc : List Candidate) (calls : List String),
      crossRefGo svc lookup items seen acc calls =
        (acc ++ (dedupFirst ((items.filterMap (extractLookupId svc)).filter
              fun i => !(i == "") && !(seen.contains i))).flatMap
            (firstHit lookup),
         calls ++ dedupFirst ((items.filterMap (extractLookupId svc)).filter
              fun i => !(i == "") && !(seen.contains i))) := by
  induction items with
  | nil =>
      intro seen acc calls
      rw [crossRefGo.eq_def]
      simp [dedupFirst_nil]
  | cons item rest ih =>
      intro seen acc calls
      cases hx : extractLookupId svc item with
      | none =>
          rw [crossRefGo_cons_none hx, ih]
          simp only [List.filterMap_cons, hx]
      | some lid =>
          by_cases hskip : (lid == "" || seen.contains lid) = true
          · have hplid : (!(lid == "") && !(seen.contains lid)) = false := by
              cases h1 : (lid == "") <;> cases h2 : seen.contains lid <;> simp_all
            rw [crossRefGo_cons_skip hx hskip, ih]
            simp only [List.filterMap_cons, hx]
            rw [List.filter_cons, if_neg (by rw [hplid]; exact Bool.false_ne_true)]
          · have hfresh : (lid == "" || seen.contains lid) = false :=
              Bool.eq_false_iff.mpr hskip
            have hplid : (!(lid == "") && !(seen.contains lid)) = true := by
              cases h1 : (lid == "") <;> cases h2 : seen.contains lid <;> simp_all
            rw [crossRefGo_cons_fresh hx hfresh]
            cases hlk : lookup lid with
            | ok l =>
                cases l with
                | nil =>
                    simp only [hlk]
                    rw [ih (lid :: seen) acc (calls ++ [lid])]
                    have hfh : firstHit lookup lid = [] := by
                      unfold firstHit; rw [hlk]
                    simp only [List.filterMap_cons, hx]
                    rw [List.filter_cons, if_pos hplid, dedupFirst_cons,
                      filter_seen_cons, List.flatMap_cons, hfh]
                    simp [Prod.mk.injEq, List.append_assoc]
                | cons h t =>
                    simp only [hlk]
                    rw [ih (lid :: seen) (acc ++ [h]) (calls ++ [lid])]
                    have hfh : firstHit lookup lid = [h] := by
                      unfold firstHit; rw [hlk]
                    simp only [List.filterMap_cons, hx]
                    rw [List.filter_cons, if_pos hplid, dedupFirst_cons,
                      filter_seen_cons, List.flatMap_cons, hfh]
                    simp [Prod.mk.injEq, List.append_assoc]
            | error e =>
                simp only [hlk]
                rw [ih (lid :: seen) acc (calls ++ [lid])]
                have hfh : firstHit lookup lid = [] := by
                  unfold firstHit; rw [hlk]
                simp only [List.filterMap_cons, hx]
                rw [List.filter_cons, if_pos hplid, dedupFirst_cons,
                  filter_seen_cons, List.flatMap_cons, hfh]
                simp [Prod.mk.injEq, List.append_assoc]

/-- C8: with the configuration present, `_task_prowlarr_to_arr_lookup`
implements exactly the claim's algorithm — at most the first 10 results are
considered, one identifier is extracted per result (tvdb for Sonarr, tmdb
else imdb for Radarr), results with no identifier or an already-seen
identifier are skipped, exactly one lookup is performed per unique
identifier (the returned call list), the first hit of each non-empty
response is collected in source order, and raising lookups are silently
skipped (the overall result is never an error). -/
theorem c8_cross_reference (svc : String) (cfg : Except String ArrCfg)
    (c : ArrCfg) (lookup : String → Except String (List Candidate))
    (results : List ProwlarrItem) (hcfg : cfg = .ok c) :
    prowlarrToArrLookup svc cfg lookup results =
      .ok (crossRefSpec svc lookup results) ∧
    prowlarrToArrLookup svc cfg lookup results =
      prowlarrToArrLookup svc cfg lookup (results.take 10) := by
  subst hcfg
  constructor
  · unfold prowlarrToArrLookup crossRefSpec
    dsimp only
    rw [crossRefGo_spec]
    have hfe : ((results.take 10).filterMap (extractLookupId svc)).filter
          (fun i => !(i == "") && !(([] : List String).contains i)) =
        ((results.take 10).filterMap (extractLookupId svc)).filter
          fun i => !(i == "") := by
      apply List.filter_congr
      intro b _
      simp
    rw [hfe]
    simp
  · unfold prowlarrToArrLookup
    dsimp only
    rw [List.take_take]
    norm_num

/-- A concrete identifier lookup oracle: tvdb:5 hits, tvdb:7 raises,
everything else is empty. -/
def c8Lookup : String → Except String (List Candidate) := fun lid =>
  if lid = "tvdb:5" then .ok [{ title := some "five" }]
  else if lid = "tvdb:7" then .error "boom" else .ok []

/-- Concrete Prowlarr results: a duplicate tvdb id, a result with no id, a
falsy id 0, and an id whose lookup raises. -/
def c8Results : List ProwlarrItem :=
  [⟨some 5, none, none⟩, ⟨some 5, none, none⟩, ⟨none, none, none⟩,
   ⟨some 0, none, none⟩, ⟨some 7, none, none⟩]

/-- Witness for C8 at the concrete oracle: the loop agrees with the
declarative description, and both deduplicate, drop the id-less and falsy
results, swallow the raising lookup, and collect the single first hit. -/
theorem c8_cross_reference_witness :
    prowlarrToArrLookup "sonarr" (.ok ⟨"http://s", "k"⟩) c8Lookup c8Results =
      .ok (crossRefSpec "sonarr" c8Lookup c8Results) ∧
    prowlarrToArrLookup "sonarr" (.ok ⟨"http://s", "k"⟩) c8Lookup c8Results =
      .ok ([{ title := some "five" }], ["tvdb:5", "tvdb:7"]) :=
  ⟨(c8_cross_reference "sonarr" (.ok ⟨"http://s", "k"⟩) ⟨"http://s", "k"⟩
      c8Lookup c8Results rfl).1,
   by rfl⟩

end Jarr
